import Mathlib

/-!
Shallow embedding of the kinetic gas simulator source (`fp.py`): the
particle data model, container geometry, motion integration, collision
handling, thermal control and the statistics aggregator, together with
theorems checking the specification's claims against this embedding.

Numeric values of the source (Python floats) are modelled as elements of
a linear ordered field with a floor operation (Python's `//` on floats
is the floor of the true quotient).  Definitions are instantiated at ℚ
for executable evaluation, and at ℝ wherever the source calls
`math.sqrt`, `math.atan2`, `math.cos` or `math.sin`.
-/

namespace GasSim

/-- Constant `PARTICLE_RADIUS = 5` from the source. -/
def PARTICLE_RADIUS : ℕ := 5

/-- Constant `MAX_SPEED = 5` from the source. -/
def MAX_SPEED : ℕ := 5

/-- Constant `PARTICLE_MASS = 1.0` from the source. -/
def PARTICLE_MASS : ℕ := 1

/-- A particle of class `Particle`: position `(x, y)`, velocity
`(dx, dy)` and mass (`self.mass = PARTICLE_MASS`). -/
structure Particle (α : Type) where
  x : α
  y : α
  dx : α
  dy : α
  mass : α
deriving DecidableEq

/-- The container rectangle, as returned by
`GasSimulator.get_box_dimensions`: `(box_width, box_height, box_x, box_y)`. -/
structure Box (α : Type) where
  width : α
  height : α
  x : α
  y : α
deriving DecidableEq

/-- The state of class `GasSimulator` that the physics engine touches:
particle list, `self.temperature`, wall-collision counter
`self.collisions`, `self.pressure_history`, viewport dimensions and
`self.box_scale`.  (Rendering-only fields of the class are omitted.) -/
structure GasSimulator (α : Type) where
  particles : List (Particle α)
  temperature : α
  collisions : ℕ
  pressure_history : List ℕ
  window_width : α
  window_height : α
  box_scale : α
deriving DecidableEq

variable {α : Type} [LinearOrderedField α] [FloorRing α]

/-- `GasSimulator.get_box_dimensions`:
`box_width = min(window_width * box_scale, window_height * box_scale)`,
`box_height = box_width * 0.75`,
`box_x = (window_width - box_width) // 2`,
`box_y = (window_height - box_height) // 2`. -/
def GasSimulator.get_box_dimensions (s : GasSimulator α) : Box α :=
  let box_width := min (s.window_width * s.box_scale) (s.window_height * s.box_scale)
  let box_height := box_width * (3 / 4 : α)
  let box_x : α := (⌊(s.window_width - box_width) / 2⌋ : ℤ)
  let box_y : α := (⌊(s.window_height - box_height) / 2⌋ : ℤ)
  ⟨box_width, box_height, box_x, box_y⟩

/-- `Particle.move(box_x, box_y, box_width, box_height)`: propose
`new_pos = pos + vel`; per axis, clamp at the near edge and force the
velocity component outward-positive (`abs`), or at the far edge and
force it outward-negative (`-abs`), via the source's `if`/`elif` chains. -/
def Particle.move (p : Particle α) (box_x box_y box_width box_height : α) : Particle α :=
  let new_x := p.x + p.dx
  let new_y := p.y + p.dy
  let rx :=
    if new_x - (PARTICLE_RADIUS : α) < box_x then (box_x + (PARTICLE_RADIUS : α), |p.dx|)
    else if new_x + (PARTICLE_RADIUS : α) > box_x + box_width then
      (box_x + box_width - (PARTICLE_RADIUS : α), -|p.dx|)
    else (new_x, p.dx)
  let ry :=
    if new_y - (PARTICLE_RADIUS : α) < box_y then (box_y + (PARTICLE_RADIUS : α), |p.dy|)
    else if new_y + (PARTICLE_RADIUS : α) > box_y + box_height then
      (box_y + box_height - (PARTICLE_RADIUS : α), -|p.dy|)
    else (new_y, p.dy)
  { p with x := rx.1, dx := rx.2, y := ry.1, dy := ry.2 }

/-- The position clamp at the top of the per-particle loop of
`GasSimulator.handle_collisions` (also the same `max (... ) (min ...)`
shape used by `reposition_particles` and `adjust_box_size`):
`x = max(box_x + R, min(box_x + box_width - R, x))`, similarly for `y`. -/
def clampToBox (b : Box α) (p : Particle α) : Particle α :=
  { p with
    x := max (b.x + (PARTICLE_RADIUS : α)) (min (b.x + b.width - (PARTICLE_RADIUS : α)) p.x),
    y := max (b.y + (PARTICLE_RADIUS : α)) (min (b.y + b.height - (PARTICLE_RADIUS : α)) p.y) }

/-- The wall-collision branch of `GasSimulator.handle_collisions`: after
the clamp, each axis's `if`/`elif` chain reflects the velocity component
inward and increments `self.collisions` when the particle touches a wall
(`<=` / `>=` comparisons, so a clamped particle counts). -/
def wallBounce (b : Box α) (p : Particle α) (c : ℕ) : Particle α × ℕ :=
  let rx :=
    if p.x - (PARTICLE_RADIUS : α) ≤ b.x then (|p.dx|, c + 1)
    else if p.x + (PARTICLE_RADIUS : α) ≥ b.x + b.width then (-|p.dx|, c + 1)
    else (p.dx, c)
  let ry :=
    if p.y - (PARTICLE_RADIUS : α) ≤ b.y then (|p.dy|, rx.2 + 1)
    else if p.y + (PARTICLE_RADIUS : α) ≥ b.y + b.height then (-|p.dy|, rx.2 + 1)
    else (p.dy, rx.2)
  ({ p with dx := rx.1, dy := ry.1 }, ry.2)

/-- `GasSimulator.reposition_particles`: clamps every particle into the
rectangle computed from the viewport and the LITERAL scale `0.8`
(the source writes `self.window_width * 0.8`, not `self.box_scale`). -/
def GasSimulator.reposition_particles (s : GasSimulator α) : GasSimulator α :=
  let box_width := min (s.window_width * (4 / 5 : α)) (s.window_height * (4 / 5 : α))
  let box_height := box_width * (3 / 4 : α)
  let box_x : α := (⌊(s.window_width - box_width) / 2⌋ : ℤ)
  let box_y : α := (⌊(s.window_height - box_height) / 2⌋ : ℤ)
  { s with particles := s.particles.map fun p =>
      { p with
        x := max (box_x + (PARTICLE_RADIUS : α))
              (min (box_x + box_width - (PARTICLE_RADIUS : α)) p.x),
        y := max (box_y + (PARTICLE_RADIUS : α))
              (min (box_y + box_height - (PARTICLE_RADIUS : α)) p.y) } }

/-- `GasSimulator.handle_resize(new_width, new_height)`: stores the new
viewport dimensions and calls `reposition_particles` (the display-mode
and button bookkeeping is presentation-only and omitted). -/
def GasSimulator.handle_resize (s : GasSimulator α) (new_width new_height : α) :
    GasSimulator α :=
  GasSimulator.reposition_particles
    { s with window_width := new_width, window_height := new_height }

/-- `GasSimulator.adjust_box_size(change)`: clamps
`box_scale + change/1000` into `[0.3, 0.9]`, then calls
`get_box_dimensions` twice — BOTH calls read the already-updated
`box_scale` (the source assigns `old_scale` but never uses it) — and
remaps every particle by its fractional position in the "old" rectangle,
then clamps into the new rectangle inset by the radius. -/
def GasSimulator.adjust_box_size (s : GasSimulator α) (change : α) : GasSimulator α :=
  let s1 := { s with box_scale := max (3 / 10 : α) (min (9 / 10 : α) (s.box_scale + change / 1000)) }
  let oldB := s1.get_box_dimensions
  let newB := s1.get_box_dimensions
  { s1 with particles := s1.particles.map fun p =>
      let rel_x := (p.x - oldB.x) / oldB.width
      let rel_y := (p.y - oldB.y) / oldB.height
      let px := newB.x + rel_x * newB.width
      let py := newB.y + rel_y * newB.height
      { p with
        x := max (newB.x + (PARTICLE_RADIUS : α))
              (min (newB.x + newB.width - (PARTICLE_RADIUS : α)) px),
        y := max (newB.y + (PARTICLE_RADIUS : α))
              (min (newB.y + newB.height - (PARTICLE_RADIUS : α)) py) } }

/-- Modelled from the spec (§4.6), for comparison with the source's
`adjust_box_size`: the fractional position is taken within the rectangle
computed from the scale factor BEFORE the change (the old rectangle),
and the particle is placed at the same fraction of the rectangle
computed after the change, then clamped. -/
def GasSimulator.adjust_box_size_spec (s : GasSimulator α) (change : α) : GasSimulator α :=
  let oldB := s.get_box_dimensions
  let s1 := { s with box_scale := max (3 / 10 : α) (min (9 / 10 : α) (s.box_scale + change / 1000)) }
  let newB := s1.get_box_dimensions
  { s1 with particles := s1.particles.map fun p =>
      let rel_x := (p.x - oldB.x) / oldB.width
      let rel_y := (p.y - oldB.y) / oldB.height
      let px := newB.x + rel_x * newB.width
      let py := newB.y + rel_y * newB.height
      { p with
        x := max (newB.x + (PARTICLE_RADIUS : α))
              (min (newB.x + newB.width - (PARTICLE_RADIUS : α)) px),
        y := max (newB.y + (PARTICLE_RADIUS : α))
              (min (newB.y + newB.height - (PARTICLE_RADIUS : α)) py) } }

/-- `GasSimulator.calculate_pressure`: appends `self.collisions` to
`pressure_history`, pops the front element when the length exceeds 60,
and returns the arithmetic mean of the retained window.  Modelled as a
state transformer because the method mutates `self.pressure_history`. -/
def GasSimulator.calculate_pressure (s : GasSimulator α) : α × GasSimulator α :=
  let h1 := s.pressure_history ++ [s.collisions]
  let h2 := if h1.length > 60 then h1.tail else h1
  ((h2.map fun n => (n : α)).sum / (h2.length : α),
   { s with pressure_history := h2 })

/-- `Particle.get_speed`: `math.sqrt(dx**2 + dy**2)`. -/
noncomputable def Particle.get_speed (p : Particle ℝ) : ℝ :=
  Real.sqrt (p.dx ^ 2 + p.dy ^ 2)

/-- `Particle.set_speed(factor)`: no-op when the current speed is zero,
otherwise both components are multiplied by `factor / current_speed`. -/
noncomputable def Particle.set_speed (p : Particle ℝ) (factor : ℝ) : Particle ℝ :=
  let current_speed := p.get_speed
  if current_speed = 0 then p
  else { p with dx := p.dx * factor / current_speed, dy := p.dy * factor / current_speed }

/-- `Particle.get_kinetic_energy`: `0.5 * mass * speed**2`. -/
noncomputable def Particle.get_kinetic_energy (p : Particle ℝ) : ℝ :=
  (1 / 2 : ℝ) * p.mass * p.get_speed ^ 2

/-- `math.atan2(y, x)`, written by its standard piecewise real
definition in terms of `Real.arctan`. -/
noncomputable def atan2 (y x : ℝ) : ℝ :=
  if 0 < x then Real.arctan (y / x)
  else if x < 0 then
    (if 0 ≤ y then Real.arctan (y / x) + Real.pi else Real.arctan (y / x) - Real.pi)
  else if 0 < y then Real.pi / 2
  else if y < 0 then -(Real.pi / 2)
  else 0

/-- The body of the inner `for j in range(i+1, ...)` loop of
`GasSimulator.handle_collisions`: if the two centers are closer than
`2 * PARTICLE_RADIUS`, swap the velocity vectors and push the particles
apart by half the overlap each, along the contact angle `atan2(dy, dx)`. -/
noncomputable def pairStep (p other : Particle ℝ) : Particle ℝ × Particle ℝ :=
  let dx := other.x - p.x
  let dy := other.y - p.y
  let distance := Real.sqrt (dx ^ 2 + dy ^ 2)
  if distance < 2 * (PARTICLE_RADIUS : ℝ) then
    let angle := atan2 dy dx
    let overlap := 2 * (PARTICLE_RADIUS : ℝ) - distance
    ({ p with
        dx := other.dx,
        dy := other.dy,
        x := p.x - overlap * Real.cos angle / 2,
        y := p.y - overlap * Real.sin angle / 2 },
     { other with
        dx := p.dx,
        dy := p.dy,
        x := other.x + overlap * Real.cos angle / 2,
        y := other.y + overlap * Real.sin angle / 2 })
  else (p, other)

/-- One inner-loop pair resolution on the particle list, at indices
`i < j`, updating both entries in place. -/
noncomputable def resolvePairAt (ps : List (Particle ℝ)) (i j : ℕ) : List (Particle ℝ) :=
  match ps[i]?, ps[j]? with
  | some p, some q =>
    let r := pairStep p q
    (ps.set i r.1).set j r.2
  | _, _ => ps

/-- The inner `for j in range(i+1, n)` loop of `handle_collisions`. -/
noncomputable def innerPass (n i : ℕ) (ps : List (Particle ℝ)) : List (Particle ℝ) :=
  (List.range' (i + 1) (n - (i + 1))).foldl (fun acc j => resolvePairAt acc i j) ps

/-- `GasSimulator.handle_collisions`: for each index `i`, clamp particle
`i` into the current rectangle, reflect its velocity and count wall
touches, then run the pairwise pass against every later index `j`. -/
noncomputable def GasSimulator.handle_collisions (s : GasSimulator ℝ) : GasSimulator ℝ :=
  let b := s.get_box_dimensions
  let n := s.particles.length
  let res := (List.range n).foldl
    (fun (acc : List (Particle ℝ) × ℕ) i =>
      match acc.1[i]? with
      | some p =>
        let pc := wallBounce b (clampToBox b p) acc.2
        (innerPass n i (acc.1.set i pc.1), pc.2)
      | none => acc)
    (s.particles, s.collisions)
  { s with particles := res.1, collisions := res.2 }

/-- One simulation tick of the driving loop, restricted to the engine:
reset `self.collisions`, move every particle inside the current
rectangle, then run `handle_collisions`. -/
noncomputable def GasSimulator.step (s : GasSimulator ℝ) : GasSimulator ℝ :=
  let s0 := { s with collisions := 0 }
  let b := s0.get_box_dimensions
  GasSimulator.handle_collisions
    { s0 with particles := s0.particles.map fun p => p.move b.x b.y b.width b.height }

/-- `GasSimulator.adjust_temperature(change)`: clamps
`self.temperature + change` into `[0.1, 2.0]` and sets every particle's
speed to `sqrt(temperature) * MAX_SPEED`. -/
noncomputable def GasSimulator.adjust_temperature (s : GasSimulator ℝ) (change : ℝ) :
    GasSimulator ℝ :=
  let t := max (1 / 10 : ℝ) (min (2 : ℝ) (s.temperature + change))
  let factor := Real.sqrt t
  { s with temperature := t,
           particles := s.particles.map fun p => p.set_speed (factor * (MAX_SPEED : ℝ)) }

/-- `GasSimulator.calculate_average_speed`: mean particle speed; the
method reads `self` and returns, leaving the state as it was. -/
noncomputable def GasSimulator.calculate_average_speed (s : GasSimulator ℝ) :
    ℝ × GasSimulator ℝ :=
  ((s.particles.map Particle.get_speed).sum / (s.particles.length : ℝ), s)

/-- `GasSimulator.calculate_total_ke`: sum of kinetic energies; reads
`self` and returns, leaving the state as it was. -/
noncomputable def GasSimulator.calculate_total_ke (s : GasSimulator ℝ) :
    ℝ × GasSimulator ℝ :=
  ((s.particles.map Particle.get_kinetic_energy).sum, s)

/-- `GasSimulator.calculate_average_ke`: `calculate_total_ke` divided by
the particle count; reads `self` and returns, leaving the state as it was. -/
noncomputable def GasSimulator.calculate_average_ke (s : GasSimulator ℝ) :
    ℝ × GasSimulator ℝ :=
  ((s.calculate_total_ke).1 / (s.particles.length : ℝ), s)

/-- The containment invariant of the spec (§3): the particle's position
lies within the rectangle inset by the particle radius. -/
def inBox (b : Box α) (p : Particle α) : Prop :=
  b.x + (PARTICLE_RADIUS : α) ≤ p.x ∧
  p.x ≤ b.x + b.width - (PARTICLE_RADIUS : α) ∧
  b.y + (PARTICLE_RADIUS : α) ≤ p.y ∧
  p.y ≤ b.y + b.height - (PARTICLE_RADIUS : α)

/-- Concrete state for the `adjust_box_size` evaluation: the default
800×600 viewport at scale `0.8` (box `480×360` at `(160, 120)`), one
particle resting at `(200, 200)`. -/
def sAdjC1 : GasSimulator ℚ :=
  ⟨[⟨200, 200, 0, 0, 1⟩], 1, 0, [], 800, 600, 4 / 5⟩

/-- Concrete state for the `handle_resize` evaluation: 800×600 viewport
at scale `0.3` (current box `180×135` at `(310, 232)`), one particle at
`(200, 300)` — inside the `0.8`-scale rectangle but left of the current
one. -/
def sResC3 : GasSimulator ℚ :=
  ⟨[⟨200, 300, 1, 1, 1⟩], 1, 0, [], 800, 600, 3 / 10⟩

/-- Concrete state for the pressure-mutation counterexample: empty
history, three wall collisions recorded this tick. -/
noncomputable def sPresC4 : GasSimulator ℝ :=
  ⟨[], 1, 3, [], 800, 600, 4 / 5⟩

/-- Concrete state for the containment counterexample: 200×150 viewport
at scale `0.8` (box `120×90` at `(40, 30)`), two overlapping particles
near the left wall. -/
noncomputable def sStepC2 : GasSimulator ℝ :=
  ⟨[⟨46, 70, -1, 0, 1⟩, ⟨47, 70, 1, 0, 1⟩], 1, 0, [], 200, 150, 4 / 5⟩

/-- Concrete state for the witness of the single-particle containment
theorem: same geometry, one resting particle at `(50, 50)`. -/
noncomputable def sStepC2w : GasSimulator ℝ :=
  ⟨[⟨50, 50, 0, 0, 1⟩], 1, 0, [], 200, 150, 4 / 5⟩

/-- Concrete state for the two-particle collision scenario: 200×150
viewport at scale `0.8` (box `120×90` at `(40, 30)`), particles at
`(100, 100)` and `(100, 109)` (overlap `1`) with velocities `(1, 0)`
and `(-1, 0)`. -/
noncomputable def sScenC6 : GasSimulator ℝ :=
  ⟨[⟨100, 100, 1, 0, 1⟩, ⟨100, 109, -1, 0, 1⟩], 1, 0, [], 200, 150, 4 / 5⟩

/-- Concrete state for the pressure window witness: empty history. -/
def sPresC7 : GasSimulator ℚ :=
  ⟨[], 1, 3, [], 800, 600, 4 / 5⟩

/-- Concrete state for the temperature witness: no particles,
temperature `1`. -/
noncomputable def sTempC8 : GasSimulator ℝ :=
  ⟨[], 1, 0, [], 800, 600, 4 / 5⟩

/-- Concrete particle for the `set_speed` witness: velocity `(3, 4)`,
speed `5`. -/
noncomputable def pSpeedC9 : Particle ℝ :=
  ⟨0, 0, 3, 4, 1⟩

/-- Claim C1 (code slip): `adjust_box_size` is supposed to remap each
particle by its fractional position within the OLD rectangle, but the
source reads `get_box_dimensions` only after updating `box_scale` (its
`old_scale` variable is never used), so the remap is the identity
followed by the clamp: from scale `0.8`, `adjust_box_size(100)` leaves
the particle at `(200, 200)`, while the spec's old-rectangle remap
(`adjust_box_size_spec`) moves it to `(175, 187)`. -/
theorem adjust_box_size_stale_rect_eval :
    (sAdjC1.adjust_box_size 100).particles.map (fun p => (p.x, p.y)) = [(200, 200)] ∧
    (sAdjC1.adjust_box_size_spec 100).particles.map (fun p => (p.x, p.y)) = [(175, 187)] ∧
    ¬(((200 : ℚ), (200 : ℚ)) = ((175 : ℚ), (187 : ℚ))) := by
  refine ⟨?_, ?_, by norm_num⟩ <;>
    simp only [GasSimulator.adjust_box_size, GasSimulator.adjust_box_size_spec,
      GasSimulator.get_box_dimensions, sAdjC1] <;>
    norm_num [Int.floor_eq_iff, PARTICLE_RADIUS]

/-- Claim C3 (code slip): `reposition_particles` computes its rectangle
from the LITERAL scale `0.8`, not from the current `box_scale`: with
`box_scale = 0.3`, `handle_resize(800, 600)` leaves the particle at
`(200, 300)` even though the rectangle derived from the current scale
factor starts at `x = 310`, inset bound `315`, so the particle is NOT
clamped into the current-scale rectangle. -/
theorem handle_resize_fixed_scale_eval :
    (sResC3.handle_resize 800 600).particles.map (fun p => (p.x, p.y)) = [(200, 300)] ∧
    (sResC3.handle_resize 800 600).get_box_dimensions.x + (PARTICLE_RADIUS : ℚ) = 315 ∧
    (200 : ℚ) < 315 := by
  refine ⟨?_, ?_, by norm_num⟩ <;>
    simp only [GasSimulator.handle_resize, GasSimulator.reposition_particles,
      GasSimulator.get_box_dimensions, sResC3] <;>
    norm_num [Int.floor_eq_iff, PARTICLE_RADIUS]

/-- Claim C4, counterexample: `calculate_pressure` is one of the
statistics queries, and it does NOT leave the state unchanged — on a
state with empty history it appends the current wall-collision count. -/
theorem calculate_pressure_mutates_state :
    (sPresC4.calculate_pressure).2 ≠ sPresC4 := by
  intro h
  have h2 := congrArg GasSimulator.pressure_history h
  simp [GasSimulator.calculate_pressure, sPresC4] at h2

/-- Claim C4, amended: the speed and kinetic-energy statistics leave the
state unchanged, and `calculate_pressure` leaves every component except
`pressure_history` unchanged (it appends the current tick's collision
count, evicting the oldest sample past 60). -/
theorem stats_frame_effects (s : GasSimulator ℝ) :
    (s.calculate_average_speed).2 = s ∧
    (s.calculate_total_ke).2 = s ∧
    (s.calculate_average_ke).2 = s ∧
    (s.calculate_pressure).2.particles = s.particles ∧
    (s.calculate_pressure).2.temperature = s.temperature ∧
    (s.calculate_pressure).2.collisions = s.collisions ∧
    (s.calculate_pressure).2.window_width = s.window_width ∧
    (s.calculate_pressure).2.window_height = s.window_height ∧
    (s.calculate_pressure).2.box_scale = s.box_scale := by
  refine ⟨rfl, rfl, rfl, rfl, rfl, rfl, rfl, rfl, rfl⟩

/-- Unfolding `handle_collisions` on a one-particle state: the particle
is clamped and wall-bounced; the pairwise pass has no pair to act on. -/
theorem handle_collisions_one (s : GasSimulator ℝ) (p : Particle ℝ)
    (h : s.particles = [p]) :
    GasSimulator.handle_collisions s =
      { s with
        particles :=
          [(wallBounce s.get_box_dimensions (clampToBox s.get_box_dimensions p)
              s.collisions).1],
        collisions :=
          (wallBounce s.get_box_dimensions (clampToBox s.get_box_dimensions p)
              s.collisions).2 } := by
  simp only [GasSimulator.handle_collisions, h, List.length_cons, List.length_nil]
  simp only [show List.range 1 = [0] from rfl, List.foldl_cons, List.foldl_nil]
  simp only [List.getElem?_cons_zero, List.set_cons_zero, innerPass, resolvePairAt]
  simp only [show (1 : ℕ) - (0 + 1) = 0 from rfl,
    show List.range' (0 + 1) 0 = [] from rfl, List.foldl_nil]

/-- Unfolding `handle_collisions` on a two-particle state, following the
source's in-place order: clamp and bounce particle `0`, resolve the pair
`(0, 1)`, then clamp and bounce (the already pair-updated) particle `1`. -/
theorem handle_collisions_two (s : GasSimulator ℝ) (p q : Particle ℝ)
    (h : s.particles = [p, q]) :
    GasSimulator.handle_collisions s =
      { s with
        particles :=
          [(pairStep (wallBounce s.get_box_dimensions (clampToBox s.get_box_dimensions p)
              s.collisions).1 q).1,
           (wallBounce s.get_box_dimensions
             (clampToBox s.get_box_dimensions
               ((pairStep (wallBounce s.get_box_dimensions (clampToBox s.get_box_dimensions p)
                   s.collisions).1 q).2))
             ((wallBounce s.get_box_dimensions (clampToBox s.get_box_dimensions p)
                 s.collisions).2)).1],
        collisions :=
          (wallBounce s.get_box_dimensions
            (clampToBox s.get_box_dimensions
              ((pairStep (wallBounce s.get_box_dimensions (clampToBox s.get_box_dimensions p)
                  s.collisions).1 q).2))
            ((wallBounce s.get_box_dimensions (clampToBox s.get_box_dimensions p)
                s.collisions).2)).2 } := by
  simp only [GasSimulator.handle_collisions, h, List.length_cons, List.length_nil]
  simp only [show List.range 2 = [0, 1] from rfl, List.foldl_cons, List.foldl_nil]
  simp only [List.getElem?_cons_zero, List.getElem?_cons_succ, List.set_cons_zero,
    List.set_cons_succ, innerPass, resolvePairAt]
  simp only [show (2 : ℕ) - (0 + 1) = 1 from rfl, show (2 : ℕ) - (1 + 1) = 0 from rfl,
    show List.range' (0 + 1) 1 = [1] from rfl, show List.range' (1 + 1) 0 = [] from rfl,
    List.foldl_cons, List.foldl_nil]
  simp only [List.getElem?_cons_zero, List.getElem?_cons_succ, List.set_cons_zero,
    List.set_cons_succ]

/-- `step` spelled out: reset the counter, move every particle against
the current rectangle, then run `handle_collisions`. -/
theorem step_eq (s : GasSimulator ℝ) :
    GasSimulator.step s = GasSimulator.handle_collisions
      { s with
        collisions := 0,
        particles := s.particles.map fun p =>
          p.move s.get_box_dimensions.x s.get_box_dimensions.y
            s.get_box_dimensions.width s.get_box_dimensions.height } := rfl

/-- The box of a 200×150 viewport at scale `0.8`: `120×90` at `(40, 30)`. -/
theorem box_eval_200_150 (s : GasSimulator ℝ)
    (h1 : s.window_width = 200) (h2 : s.window_height = 150)
    (h3 : s.box_scale = 4 / 5) :
    s.get_box_dimensions = ⟨120, 90, 40, 30⟩ := by
  simp only [GasSimulator.get_box_dimensions, h1, h2, h3]
  norm_num [Int.floor_eq_iff]

/-- `atan2` on the positive `y`-axis. -/
theorem atan2_pos_y (y : ℝ) (hy : 0 < y) : atan2 y 0 = Real.pi / 2 := by
  simp [atan2, hy, lt_irrefl]

/-- `atan2` on the right half-plane. -/
theorem atan2_pos_x (y x : ℝ) (hx : 0 < x) : atan2 y x = Real.arctan (y / x) := by
  simp [atan2, hx]

/-- `√81 = 9`. -/
theorem sqrt_81 : Real.sqrt (81 : ℝ) = 9 := by
  rw [show (81 : ℝ) = 9 ^ 2 by norm_num, Real.sqrt_sq (by norm_num : (0 : ℝ) ≤ 9)]

/-- `√9 = 3`. -/
theorem sqrt_9 : Real.sqrt (9 : ℝ) = 3 := by
  rw [show (9 : ℝ) = 3 ^ 2 by norm_num, Real.sqrt_sq (by norm_num : (0 : ℝ) ≤ 3)]

/-- The pair resolution of the spec's scenario: vertical contact,
overlap `1`, velocities swapped, each particle pushed `1/2` apart. -/
theorem pair_eval_scenario :
    pairStep (⟨100, 100, 1, 0, 1⟩ : Particle ℝ) ⟨100, 109, -1, 0, 1⟩ =
      (⟨100, 199 / 2, -1, 0, 1⟩, ⟨100, 219 / 2, 1, 0, 1⟩) := by
  simp only [pairStep]
  norm_num [sqrt_81, atan2_pos_y 9 (by norm_num : (0 : ℝ) < 9), PARTICLE_RADIUS,
    Real.cos_pi_div_two, Real.sin_pi_div_two]

/-- The pair resolution in the containment counterexample: horizontal
contact at distance `3`, overlap `7`, each particle pushed `7/2` apart. -/
theorem pair_eval_wall :
    pairStep (⟨45, 70, 1, 0, 1⟩ : Particle ℝ) ⟨48, 70, 1, 0, 1⟩ =
      (⟨83 / 2, 70, 1, 0, 1⟩, ⟨103 / 2, 70, 1, 0, 1⟩) := by
  simp only [pairStep]
  norm_num [sqrt_9, atan2_pos_x 0 3 (by norm_num : (0 : ℝ) < 3), PARTICLE_RADIUS,
    Real.arctan_zero, Real.cos_zero, Real.sin_zero]

/-- Full evaluation of one `step` on `sStepC2`: the left particle is
clamped to `x = 45`, wall-bounced, then the pairwise separation pushes
it back out to `x = 41.5 < 45`. -/
theorem step_eval_wall :
    GasSimulator.step sStepC2 =
      { sStepC2 with
        collisions := 1,
        particles := [⟨83 / 2, 70, 1, 0, 1⟩, ⟨103 / 2, 70, 1, 0, 1⟩] } := by
  have hbox : sStepC2.get_box_dimensions = ⟨120, 90, 40, 30⟩ :=
    box_eval_200_150 _ rfl rfl rfl
  rw [step_eq, hbox]
  simp only [show sStepC2.particles = [⟨46, 70, -1, 0, 1⟩, ⟨47, 70, 1, 0, 1⟩] from rfl,
    List.map_cons, List.map_nil]
  have hmv1 : Particle.move (⟨46, 70, -1, 0, 1⟩ : Particle ℝ) 40 30 120 90 =
      ⟨45, 70, -1, 0, 1⟩ := by
    simp only [Particle.move]
    norm_num [PARTICLE_RADIUS]
  have hmv2 : Particle.move (⟨47, 70, 1, 0, 1⟩ : Particle ℝ) 40 30 120 90 =
      ⟨48, 70, 1, 0, 1⟩ := by
    simp only [Particle.move]
    norm_num [PARTICLE_RADIUS]
  rw [hmv1, hmv2]
  rw [handle_collisions_two _ ⟨45, 70, -1, 0, 1⟩ ⟨48, 70, 1, 0, 1⟩ rfl]
  rw [box_eval_200_150 _ rfl rfl rfl]
  have hcl1 : clampToBox (⟨120, 90, 40, 30⟩ : Box ℝ) ⟨45, 70, -1, 0, 1⟩ =
      ⟨45, 70, -1, 0, 1⟩ := by
    simp only [clampToBox]
    norm_num [PARTICLE_RADIUS]
  have hwb1 : wallBounce (⟨120, 90, 40, 30⟩ : Box ℝ) ⟨45, 70, -1, 0, 1⟩ 0 =
      (⟨45, 70, 1, 0, 1⟩, 1) := by
    simp only [wallBounce]
    norm_num [PARTICLE_RADIUS]
  rw [hcl1, hwb1]
  simp only [pair_eval_wall]
  have hcl2 : clampToBox (⟨120, 90, 40, 30⟩ : Box ℝ) ⟨103 / 2, 70, 1, 0, 1⟩ =
      ⟨103 / 2, 70, 1, 0, 1⟩ := by
    simp only [clampToBox]
    norm_num [PARTICLE_RADIUS]
  have hwb2 : wallBounce (⟨120, 90, 40, 30⟩ : Box ℝ) ⟨103 / 2, 70, 1, 0, 1⟩ 1 =
      (⟨103 / 2, 70, 1, 0, 1⟩, 1) := by
    simp only [wallBounce]
    norm_num [PARTICLE_RADIUS]
  rw [hcl2, hwb2]

/-- Full evaluation of `handle_collisions` on the spec's two-particle
scenario state. -/
theorem scenario_eval :
    (GasSimulator.handle_collisions sScenC6).particles =
      [⟨100, 199 / 2, -1, 0, 1⟩, ⟨100, 219 / 2, 1, 0, 1⟩] ∧
    (GasSimulator.handle_collisions sScenC6).collisions = 0 := by
  have hbox : sScenC6.get_box_dimensions = ⟨120, 90, 40, 30⟩ :=
    box_eval_200_150 _ rfl rfl rfl
  rw [handle_collisions_two sScenC6 ⟨100, 100, 1, 0, 1⟩ ⟨100, 109, -1, 0, 1⟩ rfl, hbox]
  have hcol : sScenC6.collisions = 0 := rfl
  rw [hcol]
  have hcl1 : clampToBox (⟨120, 90, 40, 30⟩ : Box ℝ) ⟨100, 100, 1, 0, 1⟩ =
      ⟨100, 100, 1, 0, 1⟩ := by
    simp only [clampToBox]
    norm_num [PARTICLE_RADIUS]
  have hwb1 : wallBounce (⟨120, 90, 40, 30⟩ : Box ℝ) ⟨100, 100, 1, 0, 1⟩ 0 =
      (⟨100, 100, 1, 0, 1⟩, 0) := by
    simp only [wallBounce]
    norm_num [PARTICLE_RADIUS]
  rw [hcl1, hwb1]
  simp only [pair_eval_scenario]
  have hcl2 : clampToBox (⟨120, 90, 40, 30⟩ : Box ℝ) ⟨100, 219 / 2, 1, 0, 1⟩ =
      ⟨100, 219 / 2, 1, 0, 1⟩ := by
    simp only [clampToBox]
    norm_num [PARTICLE_RADIUS]
  have hwb2 : wallBounce (⟨120, 90, 40, 30⟩ : Box ℝ) ⟨100, 219 / 2, 1, 0, 1⟩ 0 =
      (⟨100, 219 / 2, 1, 0, 1⟩, 0) := by
    simp only [wallBounce]
    norm_num [PARTICLE_RADIUS]
  rw [hcl2, hwb2]
  exact ⟨rfl, rfl⟩

/-- Claim C2, counterexample: after one full `step` on `sStepC2`, the
first particle sits at `x = 41.5`, strictly left of the inset bound
`box.x + radius = 45` — the pairwise separation of `handle_collisions`
pushes it out of the rectangle and nothing re-clamps it. -/
theorem step_containment_counterexample :
    ∃ p ∈ (GasSimulator.step sStepC2).particles,
      p.x < (GasSimulator.step sStepC2).get_box_dimensions.x + (PARTICLE_RADIUS : ℝ) := by
  refine ⟨⟨83 / 2, 70, 1, 0, 1⟩, ?_, ?_⟩
  · rw [step_eval_wall]
    simp
  · rw [step_eval_wall, box_eval_200_150 _ rfl rfl rfl]
    norm_num [PARTICLE_RADIUS]

/-- The integrator leaves every particle inside the inset rectangle, as
long as the rectangle is at least `2 * radius` in each dimension. -/
theorem move_inBox (p : Particle ℝ) (b : Box ℝ)
    (hw : 2 * (PARTICLE_RADIUS : ℝ) ≤ b.width)
    (hh : 2 * (PARTICLE_RADIUS : ℝ) ≤ b.height) :
    inBox b (p.move b.x b.y b.width b.height) := by
  simp only [Particle.move, inBox]
  split_ifs <;> refine ⟨?_, ?_, ?_, ?_⟩ <;> dsimp only <;> linarith

/-- The collision pass's clamp is the identity on a contained particle. -/
theorem clampToBox_of_inBox (b : Box ℝ) (p : Particle ℝ) (h : inBox b p) :
    clampToBox b p = p := by
  cases p with
  | mk x y dx dy m =>
    obtain ⟨h1, h2, h3, h4⟩ := h
    simp only [clampToBox, Particle.mk.injEq]
    exact ⟨by rw [min_eq_right h2, max_eq_right h1],
      by rw [min_eq_right h4, max_eq_right h3], trivial, trivial, trivial⟩

/-- `wallBounce` never moves a particle; it only reflects velocity and
counts. -/
theorem wallBounce_position (b : Box ℝ) (p : Particle ℝ) (c : ℕ) :
    ((wallBounce b p c).1.x, (wallBounce b p c).1.y) = (p.x, p.y) := rfl

/-- The pair resolution does nothing to a separated pair. -/
theorem pairStep_of_separated (p q : Particle ℝ)
    (h : 2 * (PARTICLE_RADIUS : ℝ) ≤ Real.sqrt ((q.x - p.x) ^ 2 + (q.y - p.y) ^ 2)) :
    pairStep p q = (p, q) := by
  simp only [pairStep]
  rw [if_neg (not_lt.mpr h)]

/-- Setting a list entry to the value it already holds is the identity. -/
theorem set_self_of_getElem {γ : Type} (l : List γ) :
    ∀ (i : ℕ) (x : γ), l[i]? = some x → l.set i x = l := by
  induction l with
  | nil => intro i x h; simp at h
  | cons hd tl ih =>
    intro i x h
    cases i with
    | zero =>
      simp only [List.getElem?_cons_zero, Option.some.injEq] at h
      simp [h]
    | succ k =>
      simp only [List.getElem?_cons_succ] at h
      simp [ih k x h]

/-- A fold preserves any invariant its step function preserves. -/
theorem foldl_preserve {β γ : Type} (P : β → Prop) (f : β → γ → β) :
    ∀ (l : List γ) (b : β), P b → (∀ x g, g ∈ l → P x → P (f x g)) →
      P (l.foldl f b) := by
  intro l
  induction l with
  | nil => intro b hb _; exact hb
  | cons g gs ih =>
    intro b hb hf
    exact ih (f b g) (hf b g (List.mem_cons_self g gs) hb)
      fun x g2 hg2 hx => hf x g2 (List.mem_cons_of_mem g hg2) hx

/-- If the positions of `l` agree with those of `base` and the `base`
entries at `i < j` are separated by at least `2 * radius`, the in-place
pair resolution at `(i, j)` leaves `l` unchanged. -/
theorem resolvePairAt_id (base l : List (Particle ℝ)) (i j : ℕ)
    (hpos : l.map (fun p => (p.x, p.y)) = base.map (fun p => (p.x, p.y)))
    (hsep : ∀ p q : Particle ℝ, base[i]? = some p → base[j]? = some q →
      2 * (PARTICLE_RADIUS : ℝ) ≤ Real.sqrt ((q.x - p.x) ^ 2 + (q.y - p.y) ^ 2)) :
    resolvePairAt l i j = l := by
  rcases h1 : l[i]? with _ | p
  · simp [resolvePairAt, h1]
  rcases h2 : l[j]? with _ | q
  · simp [resolvePairAt, h1, h2]
  have hmi := congrArg (fun t => t[i]?) hpos
  have hmj := congrArg (fun t => t[j]?) hpos
  simp only [List.getElem?_map, h1, h2, Option.map_some'] at hmi hmj
  rcases hb1 : base[i]? with _ | p2
  · rw [hb1] at hmi; simp at hmi
  rcases hb2 : base[j]? with _ | q2
  · rw [hb2] at hmj; simp at hmj
  rw [hb1] at hmi
  rw [hb2] at hmj
  simp only [Option.map_some', Option.some.injEq, Prod.mk.injEq] at hmi hmj
  obtain ⟨hpx, hpy⟩ := hmi
  obtain ⟨hqx, hqy⟩ := hmj
  have hsep2 := hsep p2 q2 hb1 hb2
  rw [← hqx, ← hqy, ← hpx, ← hpy] at hsep2
  simp only [resolvePairAt, h1, h2, pairStep_of_separated p q hsep2]
  rw [set_self_of_getElem l i p h1, set_self_of_getElem l j q h2]

/-- If every particle is contained and all pairs are separated by at
least `2 * radius`, `handle_collisions` moves nothing: it only reflects
velocities and counts wall touches. -/
theorem handle_collisions_positions (s : GasSimulator ℝ)
    (hcont : ∀ p ∈ s.particles, inBox s.get_box_dimensions p)
    (hsep : ∀ i j : ℕ, i < j → ∀ p q : Particle ℝ,
      s.particles[i]? = some p → s.particles[j]? = some q →
      2 * (PARTICLE_RADIUS : ℝ) ≤ Real.sqrt ((q.x - p.x) ^ 2 + (q.y - p.y) ^ 2)) :
    (GasSimulator.handle_collisions s).particles.map (fun p => (p.x, p.y)) =
      s.particles.map (fun p => (p.x, p.y)) := by
  simp only [GasSimulator.handle_collisions]
  refine foldl_preserve
    (fun acc : List (Particle ℝ) × ℕ =>
      acc.1.map (fun p => (p.x, p.y)) = s.particles.map (fun p => (p.x, p.y)))
    _ _ _ rfl ?_
  intro acc i _ hP
  rcases hacc : acc.1[i]? with _ | p
  · simpa [hacc] using hP
  simp only [hacc]
  have hmi := congrArg (fun t => t[i]?) hP
  simp only [List.getElem?_map, hacc, Option.map_some'] at hmi
  rcases hb1 : s.particles[i]? with _ | m
  · rw [hb1] at hmi; simp at hmi
  rw [hb1] at hmi
  simp only [Option.map_some', Option.some.injEq, Prod.mk.injEq] at hmi
  obtain ⟨hpx, hpy⟩ := hmi
  have hpbox : inBox s.get_box_dimensions p := by
    have := hcont m (List.getElem?_mem hb1)
    simp only [inBox] at this ⊢
    rw [hpx, hpy]
    exact this
  rw [clampToBox_of_inBox _ _ hpbox]
  have hset : (acc.1.set i (wallBounce s.get_box_dimensions p acc.2).1).map
      (fun p => (p.x, p.y)) = s.particles.map (fun p => (p.x, p.y)) := by
    rw [List.map_set]
    have hfe : ((wallBounce s.get_box_dimensions p acc.2).1.x,
        (wallBounce s.get_box_dimensions p acc.2).1.y) = (p.x, p.y) :=
      wallBounce_position _ _ _
    rw [hfe]
    rw [set_self_of_getElem _ i (p.x, p.y)
      (by simp only [List.getElem?_map, hacc, Option.map_some'])]
    exact hP
  simp only [innerPass]
  refine foldl_preserve
    (fun l : List (Particle ℝ) =>
      l.map (fun p => (p.x, p.y)) = s.particles.map (fun p => (p.x, p.y)))
    _ _ _ hset ?_
  intro l j hj hl
  have hij : i < j := by
    have := (List.mem_range'_1.mp hj).1
    omega
  rw [resolvePairAt_id s.particles l i j hl (fun p2 q2 => hsep i j hij p2 q2)]
  exact hl

/-- Claim C2, amended: the containment invariant survives a full `step`
whenever the pairwise separation does not act — that is, when no two of
the integrated particles are within `2 * radius` of each other — and the
rectangle is at least `2 * radius` wide and high.  In general the claim
fails: the pairwise separation can push a particle out of the rectangle
(see the counterexample). -/
theorem step_containment_no_overlap (s : GasSimulator ℝ)
    (hw : 2 * (PARTICLE_RADIUS : ℝ) ≤ s.get_box_dimensions.width)
    (hh : 2 * (PARTICLE_RADIUS : ℝ) ≤ s.get_box_dimensions.height)
    (hsep : ∀ i j : ℕ, i < j → ∀ p q : Particle ℝ,
      (s.particles.map fun r => r.move s.get_box_dimensions.x s.get_box_dimensions.y
        s.get_box_dimensions.width s.get_box_dimensions.height)[i]? = some p →
      (s.particles.map fun r => r.move s.get_box_dimensions.x s.get_box_dimensions.y
        s.get_box_dimensions.width s.get_box_dimensions.height)[j]? = some q →
      2 * (PARTICLE_RADIUS : ℝ) ≤ Real.sqrt ((q.x - p.x) ^ 2 + (q.y - p.y) ^ 2)) :
    ∀ q ∈ (GasSimulator.step s).particles, inBox s.get_box_dimensions q := by
  have hpos := handle_collisions_positions
    { s with
      collisions := 0,
      particles := s.particles.map fun r =>
        r.move s.get_box_dimensions.x s.get_box_dimensions.y
          s.get_box_dimensions.width s.get_box_dimensions.height }
    (by
      intro p hp
      simp only [List.mem_map] at hp
      obtain ⟨r, _, rfl⟩ := hp
      exact move_inBox r s.get_box_dimensions hw hh)
    hsep
  intro q hq
  rw [step_eq] at hq
  have hmem : (q.x, q.y) ∈
      (s.particles.map fun r =>
        r.move s.get_box_dimensions.x s.get_box_dimensions.y
          s.get_box_dimensions.width s.get_box_dimensions.height).map
        (fun p => (p.x, p.y)) := by
    rw [← hpos]
    exact List.mem_map_of_mem _ hq
  simp only [List.mem_map] at hmem
  obtain ⟨m, ⟨r, _, rfl⟩, hfeq⟩ := hmem
  have him := move_inBox r s.get_box_dimensions hw hh
  simp only [Prod.mk.injEq] at hfeq
  obtain ⟨hx, hy⟩ := hfeq
  simp only [inBox] at him ⊢
  rw [← hx, ← hy]
  exact him

/-- Witness for the amended containment theorem: a resting particle at
`(50, 50)` in the `120×90` box at `(40, 30)` stays inside the inset
rectangle after one `step` (with one particle no pair can overlap). -/
theorem step_containment_no_overlap_witness :
    (⟨50, 50, 0, 0, 1⟩ : Particle ℝ) ∈ (GasSimulator.step sStepC2w).particles ∧
    inBox sStepC2w.get_box_dimensions (⟨50, 50, 0, 0, 1⟩ : Particle ℝ) := by
  have hbox : sStepC2w.get_box_dimensions = ⟨120, 90, 40, 30⟩ :=
    box_eval_200_150 _ rfl rfl rfl
  have hmem : (⟨50, 50, 0, 0, 1⟩ : Particle ℝ) ∈ (GasSimulator.step sStepC2w).particles := by
    have hstep : GasSimulator.step sStepC2w =
        { sStepC2w with collisions := 0, particles := [⟨50, 50, 0, 0, 1⟩] } := by
      rw [step_eq, hbox]
      simp only [show sStepC2w.particles = [⟨50, 50, 0, 0, 1⟩] from rfl,
        List.map_cons, List.map_nil]
      have hmv : Particle.move (⟨50, 50, 0, 0, 1⟩ : Particle ℝ) 40 30 120 90 =
          ⟨50, 50, 0, 0, 1⟩ := by
        simp only [Particle.move]
        norm_num [PARTICLE_RADIUS]
      rw [hmv]
      rw [handle_collisions_one _ ⟨50, 50, 0, 0, 1⟩ rfl]
      rw [box_eval_200_150 _ rfl rfl rfl]
      have hcl : clampToBox (⟨120, 90, 40, 30⟩ : Box ℝ) ⟨50, 50, 0, 0, 1⟩ =
          ⟨50, 50, 0, 0, 1⟩ := by
        simp only [clampToBox]
        norm_num [PARTICLE_RADIUS]
      have hwb : wallBounce (⟨120, 90, 40, 30⟩ : Box ℝ) ⟨50, 50, 0, 0, 1⟩ 0 =
          (⟨50, 50, 0, 0, 1⟩, 0) := by
        simp only [wallBounce]
        norm_num [PARTICLE_RADIUS]
      rw [hcl, hwb]
    rw [hstep]
    simp
  refine ⟨hmem, ?_⟩
  refine step_containment_no_overlap sStepC2w
    (by rw [hbox]; norm_num [PARTICLE_RADIUS])
    (by rw [hbox]; norm_num [PARTICLE_RADIUS])
    ?_ _ hmem
  intro i j hij p q hp hq
  exfalso
  have hlen : (sStepC2w.particles.map fun r =>
      r.move sStepC2w.get_box_dimensions.x sStepC2w.get_box_dimensions.y
        sStepC2w.get_box_dimensions.width sStepC2w.get_box_dimensions.height).length = 1 := by
    simp [show sStepC2w.particles = [⟨50, 50, 0, 0, 1⟩] from rfl]
  have hj1 : (sStepC2w.particles.map fun r =>
      r.move sStepC2w.get_box_dimensions.x sStepC2w.get_box_dimensions.y
        sStepC2w.get_box_dimensions.width sStepC2w.get_box_dimensions.height).length ≤ j := by
    rw [hlen]
    omega
  rw [List.getElem?_eq_none hj1] at hq
  exact Option.noConfusion hq

/-- Claim C6: on the spec's scenario (centers `(100, 100)` and
`(100, 100 + 2*radius - 1)`, velocities `(1, 0)` and `(-1, 0)`), one
collision-resolution pass swaps the velocities to `(-1, 0)` and `(1, 0)`
and leaves the centers exactly `2 * radius` apart vertically. -/
theorem two_particle_overlap_scenario :
    ∃ a b : Particle ℝ,
      (GasSimulator.handle_collisions sScenC6).particles = [a, b] ∧
      a.dx = -1 ∧ a.dy = 0 ∧ b.dx = 1 ∧ b.dy = 0 ∧
      a.x = 100 ∧ a.y = 100 - 1 / 2 ∧ b.x = 100 ∧ b.y = 109 + 1 / 2 ∧
      b.y - a.y = 2 * (PARTICLE_RADIUS : ℝ) := by
  refine ⟨⟨100, 199 / 2, -1, 0, 1⟩, ⟨100, 219 / 2, 1, 0, 1⟩,
    scenario_eval.1, ?_, ?_, ?_, ?_, ?_, ?_, ?_, ?_, ?_⟩ <;>
    norm_num [PARTICLE_RADIUS]

/-- Claim C5: whenever the pair resolution fires (center distance below
`2 * radius`), the two velocity vectors are exactly exchanged, and with
equal masses the pair's total kinetic energy is unchanged. -/
theorem pair_collision_swaps_velocities (p q : Particle ℝ)
    (hm : p.mass = q.mass)
    (hd : Real.sqrt ((q.x - p.x) ^ 2 + (q.y - p.y) ^ 2) < 2 * (PARTICLE_RADIUS : ℝ)) :
    (pairStep p q).1.dx = q.dx ∧ (pairStep p q).1.dy = q.dy ∧
    (pairStep p q).2.dx = p.dx ∧ (pairStep p q).2.dy = p.dy ∧
    (pairStep p q).1.get_kinetic_energy + (pairStep p q).2.get_kinetic_energy =
      p.get_kinetic_energy + q.get_kinetic_energy := by
  simp only [pairStep, if_pos hd]
  refine ⟨trivial, trivial, trivial, trivial, ?_⟩
  simp only [Particle.get_kinetic_energy, Particle.get_speed]
  rw [hm]
  ring

/-- Witness for the velocity-swap theorem, at the scenario pair: the
overlap fires and the first particle takes over the second's velocity. -/
theorem pair_collision_swaps_velocities_witness :
    (pairStep (⟨100, 100, 1, 0, 1⟩ : Particle ℝ) ⟨100, 109, -1, 0, 1⟩).1.dx = -1 := by
  have h := pair_collision_swaps_velocities (⟨100, 100, 1, 0, 1⟩ : Particle ℝ)
    ⟨100, 109, -1, 0, 1⟩ rfl
    (by
      rw [show (((100 : ℝ) - 100) ^ 2 + ((109 : ℝ) - 100) ^ 2) = 81 by norm_num, sqrt_81]
      norm_num [PARTICLE_RADIUS])
  exact h.1

omit [FloorRing α] in
/-- The `pressure_history` left behind by one `calculate_pressure` call,
as the source computes it: append, then pop the front past 60. -/
theorem calculate_pressure_history_eq (s : GasSimulator α) :
    (s.calculate_pressure).2.pressure_history =
      if (s.pressure_history ++ [s.collisions]).length > 60
      then (s.pressure_history ++ [s.collisions]).tail
      else s.pressure_history ++ [s.collisions] := rfl

omit [FloorRing α] in
/-- One `calculate_pressure` call takes a history of length at most 60
to length `min (length + 1) 60`. -/
theorem calculate_pressure_length (s : GasSimulator α)
    (h : s.pressure_history.length ≤ 60) :
    (s.calculate_pressure).2.pressure_history.length =
      min (s.pressure_history.length + 1) 60 := by
  rw [calculate_pressure_history_eq]
  split <;>
    simp_all only [List.length_tail, List.length_append, List.length_cons,
      List.length_nil, gt_iff_lt, not_lt] <;>
    omega

omit [FloorRing α] in
/-- Iterating `calculate_pressure` preserves the 60-sample bound. -/
theorem calculate_pressure_iterate_length (n : ℕ) :
    ∀ s : GasSimulator α, s.pressure_history.length ≤ 60 →
      ((fun st => (GasSimulator.calculate_pressure st).2)^[n] s).pressure_history.length
        ≤ 60 := by
  induction n with
  | zero => intro s h; simpa using h
  | succ k ih =>
    intro s h
    rw [Function.iterate_succ_apply]
    refine ih _ ?_
    rw [calculate_pressure_length s h]
    omega

omit [FloorRing α] in
/-- Claim C7: `pressure_history` never exceeds 60 samples, however many
times `calculate_pressure` runs; each call appends the current count at
the back and, past capacity, drops the oldest sample at the front (the
retained window is a suffix of the appended history). -/
theorem pressure_history_bounded (s : GasSimulator α) (n : ℕ)
    (h : s.pressure_history.length ≤ 60) :
    ((fun st => (GasSimulator.calculate_pressure st).2)^[n] s).pressure_history.length
        ≤ 60 ∧
    (s.calculate_pressure).2.pressure_history.length =
      min (s.pressure_history.length + 1) 60 ∧
    (s.calculate_pressure).2.pressure_history <:+ s.pressure_history ++ [s.collisions] := by
  refine ⟨calculate_pressure_iterate_length n s h, calculate_pressure_length s h, ?_⟩
  rw [calculate_pressure_history_eq]
  split
  · exact List.tail_suffix _
  · exact List.suffix_refl _

/-- Witness for the pressure-window theorem: two calls from an empty
history leave at most 60 samples. -/
theorem pressure_history_bounded_witness :
    ((fun st => (GasSimulator.calculate_pressure st).2)^[2] sPresC7).pressure_history.length
      ≤ 60 := by
  exact (pressure_history_bounded sPresC7 2 (by norm_num [sPresC7])).1

/-- Claim C8: `adjust_temperature` always lands `temperature` in
`[0.1, 2.0]`; any call whose target `temperature + delta` is at least 2
saturates at exactly 2 (and symmetrically at 0.1); and repeated calls
with `delta ≥ 1.9` from any temperature at least 0.1 reach 2 on the
first call and stay there. -/
theorem adjust_temperature_clamped (s : GasSimulator ℝ) (d : ℝ) :
    ((1 / 10 : ℝ) ≤ (s.adjust_temperature d).temperature ∧
      (s.adjust_temperature d).temperature ≤ 2) ∧
    (2 ≤ s.temperature + d → (s.adjust_temperature d).temperature = 2) ∧
    (s.temperature + d ≤ 1 / 10 → (s.adjust_temperature d).temperature = 1 / 10) ∧
    (∀ n : ℕ, 1 ≤ n → (19 / 10 : ℝ) ≤ d → (1 / 10 : ℝ) ≤ s.temperature →
      ((fun st => GasSimulator.adjust_temperature st d)^[n] s).temperature = 2) := by
  have htemp : ∀ t : GasSimulator ℝ,
      (t.adjust_temperature d).temperature = max (1 / 10) (min 2 (t.temperature + d)) :=
    fun t => rfl
  refine ⟨⟨le_max_left _ _, max_le (by norm_num) (min_le_left _ _)⟩, ?_, ?_, ?_⟩
  · intro h2
    rw [htemp, min_eq_left h2, max_eq_right (by norm_num)]
  · intro h1
    rw [htemp, min_eq_right (by linarith), max_eq_left (by linarith)]
  · intro n hn hd ht
    induction n with
    | zero => omega
    | succ k ih =>
      rw [Function.iterate_succ_apply']
      rcases Nat.eq_zero_or_pos k with hk | hk
      · subst hk
        simp only [Function.iterate_zero, id_eq]
        rw [htemp, min_eq_left (by linarith), max_eq_right (by norm_num)]
      · have hik := ih hk
        rw [htemp, hik, min_eq_left (by linarith), max_eq_right (by norm_num)]

/-- Witness for the temperature theorem: from temperature 1, a delta of
2 saturates at exactly 2. -/
theorem adjust_temperature_clamped_witness :
    (sTempC8.adjust_temperature 2).temperature = 2 := by
  exact (adjust_temperature_clamped sTempC8 2).2.1 (by norm_num [sTempC8])

/-- Claim C9: `set_speed` is a no-op on a resting particle (the
zero-speed guard prevents the division), and otherwise rescales both
components so the new speed is exactly the (nonnegative) target and the
velocity stays a positive multiple of the old one. -/
theorem set_speed_zero_guard (p : Particle ℝ) (t : ℝ) :
    (p.get_speed = 0 → p.set_speed t = p) ∧
    (p.get_speed ≠ 0 →
      (0 ≤ t → (p.set_speed t).get_speed = t) ∧
      (0 < t → ∃ c : ℝ, 0 < c ∧
        (p.set_speed t).dx = c * p.dx ∧ (p.set_speed t).dy = c * p.dy)) := by
  constructor
  · intro h
    simp [Particle.set_speed, h]
  · intro h
    have h0 : 0 ≤ p.get_speed := by
      simp only [Particle.get_speed]
      exact Real.sqrt_nonneg _
    have hs : 0 < p.get_speed := lt_of_le_of_ne h0 (Ne.symm h)
    constructor
    · intro ht
      simp only [Particle.set_speed, if_neg h]
      simp only [Particle.get_speed] at hs ⊢
      rw [show (p.dx * t / Real.sqrt (p.dx ^ 2 + p.dy ^ 2)) ^ 2 +
            (p.dy * t / Real.sqrt (p.dx ^ 2 + p.dy ^ 2)) ^ 2 =
          (t / Real.sqrt (p.dx ^ 2 + p.dy ^ 2)) ^ 2 * (p.dx ^ 2 + p.dy ^ 2) by ring]
      rw [Real.sqrt_mul (sq_nonneg _), Real.sqrt_sq_eq_abs]
      rw [abs_of_nonneg (div_nonneg ht hs.le)]
      exact div_mul_cancel₀ t hs.ne'
    · intro ht
      refine ⟨t / p.get_speed, div_pos ht hs, ?_, ?_⟩ <;>
        · simp only [Particle.set_speed, if_neg h]
          ring

/-- Witness for the `set_speed` theorem: a particle with velocity
`(3, 4)` has speed 5; rescaling to 10 yields speed exactly 10. -/
theorem set_speed_zero_guard_witness :
    pSpeedC9.get_speed ≠ 0 ∧ (pSpeedC9.set_speed 10).get_speed = 10 := by
  have h5 : pSpeedC9.get_speed = 5 := by
    simp only [Particle.get_speed, pSpeedC9]
    rw [show ((3 : ℝ) ^ 2 + (4 : ℝ) ^ 2) = 5 ^ 2 by norm_num,
      Real.sqrt_sq (by norm_num : (0 : ℝ) ≤ 5)]
  have hne : pSpeedC9.get_speed ≠ 0 := by rw [h5]; norm_num
  exact ⟨hne, ((set_speed_zero_guard pSpeedC9 10).2 hne).1 (by norm_num)⟩

omit [FloorRing α] in
/-- Claim C10: `calculate_pressure` appends before averaging, so the
window it divides by always has length at least one — even on the very
first call with an empty prior history — and the returned value is the
arithmetic mean over that nonempty window. -/
theorem calculate_pressure_nonzero_divisor (s : GasSimulator α) :
    0 < (s.calculate_pressure).2.pressure_history.length ∧
    (s.calculate_pressure).1 =
      ((s.calculate_pressure).2.pressure_history.map fun n => (n : α)).sum /
        ((s.calculate_pressure).2.pressure_history.length : α) := by
  constructor
  · simp only [GasSimulator.calculate_pressure]
    split <;>
      simp_all only [List.length_tail, List.length_append, List.length_cons,
        List.length_nil, gt_iff_lt] <;>
      omega
  · rfl

end GasSim
